import Mathlib

/-!
Verification of the navigator-ai browser-extension control plane.

The definitions below are shallow embeddings of the TypeScript source:
  - the URL-validity predicate of the shared utility module,
  - the message-delivery retry loop of the background script,
  - the tab-resolution retry/fallback ladder,
  - the session manager (start/stop/pause/resume) and completion checks,
  - the monitoring loop with its in-progress guard.

Two coordinator implementations exist in the repository: the primary
background script (axios-based, recursive async loop) and a legacy
variant (interval-based).  Definitions for the legacy variant carry a
V1 suffix.

Asynchronous browser calls (tab queries, content-script messaging,
HTTP) are modelled as explicit oracle inputs; `chrome.storage.local`
is a record of optional keys; broadcasts and other side effects are
collected in event lists.  Timestamps produced by `new Date()` are
threaded as an explicit `now` argument.
-/

/-- Session lifecycle status of the in-memory session record
(`'active' | 'completed' | 'error' | 'paused'`). -/
inductive SessionStatus where
  | active
  | completed
  | error
  | paused
deriving DecidableEq, Repr

/-- The `TaskState['status']` union from types.ts
(`'idle' | 'running' | 'completed' | 'error' | 'paused' | 'stopping'`). -/
inductive TaskStatus where
  | idle
  | running
  | completed
  | error
  | paused
  | stopping
deriving DecidableEq, Repr

/-- Fine-grained processing status from types.ts. -/
inductive ProcessingStatus where
  | idle
  | parsing
  | updating
  | executing_actions
  | waiting_for_server
  | completed
  | error
  | paused
  | stopping
deriving DecidableEq, Repr

/-- JavaScript `s.startsWith(p)`, expressed on the character lists so that
the kernel can evaluate it on concrete strings. -/
def strStartsWith (s p : String) : Bool :=
  p.data.isPrefixOf s.data

/-- URL-validity predicate from src/utils/url.ts (identical copy inside the
legacy background script).  Accepts any string that does not start with one
of six internal-browser scheme markers. -/
def isValidUrl (url : String) : Bool :=
  !(strStartsWith url "chrome://") &&
  !(strStartsWith url "chrome-extension://") &&
  !(strStartsWith url "chrome-search://") &&
  !(strStartsWith url "about:") &&
  !(strStartsWith url "edge://") &&
  !(strStartsWith url "brave://")

/-- C10: isValidUrl accepts exactly the strings that do not start with one
of the six internal-browser markers (chrome://, chrome-extension://,
chrome-search://, about:, edge://, brave://); in particular the empty
string and arbitrary non-URL text are accepted, while each of the six
marker families is rejected. -/
theorem isValidUrl_spec :
    (∀ url : String,
      isValidUrl url = true ↔
        (strStartsWith url "chrome://" = false ∧
         strStartsWith url "chrome-extension://" = false ∧
         strStartsWith url "chrome-search://" = false ∧
         strStartsWith url "about:" = false ∧
         strStartsWith url "edge://" = false ∧
         strStartsWith url "brave://" = false))
    ∧ isValidUrl "" = true
    ∧ isValidUrl "this is arbitrary text, not a URL" = true
    ∧ isValidUrl "https://www.google.com" = true
    ∧ isValidUrl "chrome://settings" = false
    ∧ isValidUrl "chrome-extension://abcdef" = false
    ∧ isValidUrl "chrome-search://local" = false
    ∧ isValidUrl "about:blank" = false
    ∧ isValidUrl "edge://flags" = false
    ∧ isValidUrl "brave://rewards" = false := by
  refine ⟨fun url => ?_, by decide, by decide, by decide, by decide,
    by decide, by decide, by decide, by decide, by decide⟩
  simp [isValidUrl, and_assoc]

/-- Reply from the content script to a `singleDOMProcess` dispatch
(`{success, isDone?, error?}`; the `results` payload is not inspected by
the control flow and is omitted). -/
structure ProcResponse where
  success : Bool
  isDone : Option Bool
  error : Option String
deriving DecidableEq, Repr

/-- Contiguous-substring test on character lists, used to express the
JavaScript `String.prototype.includes`. -/
def charsInclude (needle : List Char) : List Char → Bool
  | [] => needle.isPrefixOf []
  | c :: rest => needle.isPrefixOf (c :: rest) || charsInclude needle rest

/-- JavaScript `response.error?.includes('back/forward cache')`:
false when the error field is absent, otherwise a substring test. -/
def errIncludesBfcache (e : Option String) : Bool :=
  match e with
  | none => false
  | some s => charsInclude "back/forward cache".data s.data

deriving instance DecidableEq for Except

/-- Observable outcome of `sendProcessMessage`: the returned value or the
thrown error, together with the number of `attemptSend` calls made and the
waits (in ms) slept between attempts. -/
structure SendOutcome where
  result : Except String ProcResponse
  attempts : Nat
  delays : List Nat
deriving DecidableEq, Repr

/-- The `while (retryCount < maxRetries)` body of `sendProcessMessage`.
`responses k` is the oracle for the k-th `attemptSend` (its reply, or the
exception it throws during script injection); `remaining` is
`maxRetries - retryCount`.  A reply is retried exactly when it is
unsuccessful and its error mentions the back/forward cache; the wait before
the next attempt is `1000 * retryCount` after the increment, and it is
skipped once `retryCount` reaches `maxRetries` (the loop then exits and the
function throws). -/
def sendProcessMessageGo (responses : Nat → Except String ProcResponse) :
    Nat → Nat → SendOutcome
  | _, 0 =>
    ⟨.error "Failed after max retries due to back/forward cache error", 0, []⟩
  | retryCount, r + 1 =>
    match responses retryCount with
    | .error e => ⟨.error e, 1, []⟩
    | .ok response =>
      if response.success || !(errIncludesBfcache response.error) then
        ⟨.ok response, 1, []⟩
      else
        match r with
        | 0 =>
          ⟨.error "Failed after max retries due to back/forward cache error",
           1, []⟩
        | _ + 1 =>
          let rest := sendProcessMessageGo responses (retryCount + 1) r
          ⟨rest.result, rest.attempts + 1, 1000 * (retryCount + 1) :: rest.delays⟩

/-- Embedding of `sendProcessMessage(tabId, task_id, maxRetries)` from the primary
background script, with the per-attempt bridge behaviour as an oracle. -/
def sendProcessMessage (responses : Nat → Except String ProcResponse)
    (maxRetries : Nat) : SendOutcome :=
  sendProcessMessageGo responses 0 maxRetries

/-- A reply that the loop retries: unsuccessful with a back/forward-cache
error. -/
def bfcacheRetryable (x : Except String ProcResponse) : Bool :=
  match x with
  | .error _ => false
  | .ok r => !r.success && errIncludesBfcache r.error

theorem sendProcessMessageGo_succ_eq
    (responses : Nat → Except String ProcResponse) (retryCount r : Nat) :
    sendProcessMessageGo responses retryCount (r + 1) =
      (match responses retryCount with
      | .error e => ⟨.error e, 1, []⟩
      | .ok response =>
        if response.success || !(errIncludesBfcache response.error) then
          ⟨.ok response, 1, []⟩
        else
          match r with
          | 0 =>
            ⟨.error "Failed after max retries due to back/forward cache error",
             1, []⟩
          | _ + 1 =>
            let rest := sendProcessMessageGo responses (retryCount + 1) r
            ⟨rest.result, rest.attempts + 1,
             1000 * (retryCount + 1) :: rest.delays⟩) := rfl

/-- Waits slept by the retry loop when every attempt is retryable, starting
from a given `retryCount` with `n` attempts remaining: `1000 * (retryCount+1)`,
then `1000 * (retryCount+2)`, and so on, with no wait after the final
attempt. -/
def bfDelays (retryCount : Nat) : Nat → List Nat
  | 0 => []
  | r + 1 =>
    match r with
    | 0 => []
    | _ + 1 => 1000 * (retryCount + 1) :: bfDelays (retryCount + 1) r

theorem sendProcessMessageGo_all_retryable
    (responses : Nat → Except String ProcResponse) :
    ∀ n retryCount, (∀ k, k < n → bfcacheRetryable (responses (retryCount + k)) = true) →
      sendProcessMessageGo responses retryCount n =
        ⟨.error "Failed after max retries due to back/forward cache error", n,
         bfDelays retryCount n⟩ := by
  intro n
  induction n with
  | zero => intro retryCount _; rfl
  | succ m ih =>
    intro retryCount h
    have h0 : bfcacheRetryable (responses retryCount) = true := by
      simpa using h 0 (Nat.succ_pos m)
    rw [sendProcessMessageGo_succ_eq]
    cases hr : responses retryCount with
    | error e => rw [hr] at h0; simp [bfcacheRetryable] at h0
    | ok resp =>
      rw [hr] at h0
      simp only [bfcacheRetryable, Bool.and_eq_true, Bool.not_eq_true'] at h0
      obtain ⟨hs, hb⟩ := h0
      cases m with
      | zero => simp [hs, hb, bfDelays]
      | succ m' =>
        have hrec := ih (retryCount + 1) (fun k hk => by
          have := h (k + 1) (by omega)
          simpa [Nat.add_assoc, Nat.add_comm 1 k] using this)
        simp [hs, hb, hrec, bfDelays]

theorem sendProcessMessageGo_returns_at
    (responses : Nat → Except String ProcResponse) :
    ∀ k n retryCount r, k < n →
      (∀ j, j < k → bfcacheRetryable (responses (retryCount + j)) = true) →
      responses (retryCount + k) = .ok r →
      (r.success || !(errIncludesBfcache r.error)) = true →
      sendProcessMessageGo responses retryCount n =
        ⟨.ok r, k + 1, bfDelays retryCount (k + 1)⟩ := by
  intro k
  induction k with
  | zero =>
    intro n retryCount r hn _ hresp hcond
    cases n with
    | zero => omega
    | succ m =>
      rw [sendProcessMessageGo_succ_eq]
      rw [Nat.add_zero] at hresp
      rw [hresp]
      simp [hcond, bfDelays]
  | succ k' ih =>
    intro n retryCount r hn hpre hresp hcond
    cases n with
    | zero => omega
    | succ m =>
      have h0 : bfcacheRetryable (responses retryCount) = true := by
        simpa using hpre 0 (Nat.succ_pos k')
      rw [sendProcessMessageGo_succ_eq]
      cases hr : responses retryCount with
      | error e => rw [hr] at h0; simp [bfcacheRetryable] at h0
      | ok resp =>
        rw [hr] at h0
        simp only [bfcacheRetryable, Bool.and_eq_true, Bool.not_eq_true'] at h0
        obtain ⟨hs, hb⟩ := h0
        cases m with
        | zero => omega
        | succ m' =>
          have hrec := ih (m' + 1) (retryCount + 1) r (by omega)
            (fun j hj => by
              have := hpre (j + 1) (by omega)
              simpa [Nat.add_assoc, Nat.add_comm 1 j] using this)
            (by
              have : retryCount + 1 + k' = retryCount + (k' + 1) := by omega
              rw [this]; exact hresp)
            hcond
          simp [hs, hb, hrec, bfDelays]

/-- C6: sendProcessMessage retries its probe-inject-deliver attempt exactly
when the reply is unsuccessful with a back/forward-cache error, sleeping a
linearly growing wait (1000ms, 2000ms, ...) between attempts; with a bridge
that always reports the back/forward-cache failure it makes exactly 10
attempts and then throws instead of retrying further; a reply that is not a
back/forward-cache failure (here shown both in general position k and for a
first-attempt exception) is returned immediately with no further attempt. -/
theorem sendProcessMessage_retry_policy :
    (∀ responses : Nat → Except String ProcResponse,
      (∀ k, k < 10 → bfcacheRetryable (responses k) = true) →
      sendProcessMessage responses 10 =
        ⟨.error "Failed after max retries due to back/forward cache error", 10,
         [1000, 2000, 3000, 4000, 5000, 6000, 7000, 8000, 9000]⟩)
    ∧ (∀ (responses : Nat → Except String ProcResponse) (k : Nat) (r : ProcResponse),
        k < 10 →
        (∀ j, j < k → bfcacheRetryable (responses j) = true) →
        responses k = .ok r →
        (r.success || !(errIncludesBfcache r.error)) = true →
        sendProcessMessage responses 10 = ⟨.ok r, k + 1, bfDelays 0 (k + 1)⟩)
    ∧ (∀ (responses : Nat → Except String ProcResponse) (e : String),
        responses 0 = .error e →
        sendProcessMessage responses 10 = ⟨.error e, 1, []⟩) := by
  refine ⟨?_, ?_, ?_⟩
  · intro responses h
    rw [sendProcessMessage,
      sendProcessMessageGo_all_retryable responses 10 0
        (fun k hk => by simpa using h k hk)]
    decide
  · intro responses k r hk hpre hresp hcond
    rw [sendProcessMessage,
      sendProcessMessageGo_returns_at responses k 10 0 r hk
        (fun j hj => by simpa using hpre j hj)
        (by simpa using hresp) hcond]
  · intro responses e he
    rw [sendProcessMessage, sendProcessMessageGo_succ_eq, he]

theorem sendProcessMessage_retry_policy_witness :
    sendProcessMessage
        (fun _ => .ok ⟨false, none, some "page was in back/forward cache"⟩) 10 =
      ⟨.error "Failed after max retries due to back/forward cache error", 10,
       [1000, 2000, 3000, 4000, 5000, 6000, 7000, 8000, 9000]⟩
    ∧ sendProcessMessage
        (fun _ => .ok ⟨false, none, some "Could not establish connection"⟩) 10 =
      ⟨.ok ⟨false, none, some "Could not establish connection"⟩, 1, []⟩
    ∧ sendProcessMessage (fun _ => .error "inject failed") 10 =
      ⟨.error "inject failed", 1, []⟩ := by
  refine ⟨?_, ?_, ?_⟩
  · exact sendProcessMessage_retry_policy.1 _ (fun k _ => by decide)
  · have := sendProcessMessage_retry_policy.2.1
      (fun _ => .ok ⟨false, none, some "Could not establish connection"⟩)
      0 ⟨false, none, some "Could not establish connection"⟩
      (by decide) (fun j hj => absurd hj (Nat.not_lt_zero j)) rfl (by decide)
    simpa [bfDelays] using this
  · exact sendProcessMessage_retry_policy.2.2 _ "inject failed" rfl

/-- A browser tab as seen through `chrome.tabs.query`: the fields the
background script inspects.  `id` and `url` can be absent (or falsy),
mirroring the JavaScript truthiness checks. -/
structure Tab where
  id : Option Int
  url : Option String
  status : Option String
  active : Bool
deriving DecidableEq, Repr

/-- JavaScript truthiness of an optional numeric tab id (0 is falsy). -/
def truthyInt : Option Int → Bool
  | none => false
  | some n => n != 0

/-- JavaScript truthiness of an optional string (the empty string is
falsy). -/
def truthyStr : Option String → Bool
  | none => false
  | some s => s != ""

/-- One attempt of `getValidTab`: inspect the first tab returned by
`chrome.tabs.query({active: true, currentWindow: true})`; usable when it has
an id and a url and its load status is complete or loading.  Any other
outcome falls through to the retry wait. -/
def attemptPick (tabs : List Tab) : Option Tab :=
  match tabs.head? with
  | some tab =>
    if truthyInt tab.id && truthyStr tab.url then
      if tab.status == some "complete" || tab.status == some "loading" then
        some tab
      else none
    else none
  | none => none

/-- The `for (attempt = 1; attempt <= maxRetries; ...)` loop of
`getValidTab`, driven by the list of query results for the successive
attempts.  A query error behaves like an empty result (both paths only wait
and retry).  `retryDelay` starts at 1000ms and grows by the factor 1.5
(`retryDelay *= 1.5`) after each failed attempt except the last; the waits
actually slept are collected in the second component. -/
def getValidTabAttempts : List (List Tab) → ℚ → Option Tab × List ℚ
  | [], _ => (none, [])
  | tabs :: rest, retryDelay =>
    match attemptPick tabs with
    | some tab => (some tab, [])
    | none =>
      match rest with
      | [] => (none, [])
      | _ :: _ =>
        let out := getValidTabAttempts rest (retryDelay * (3 / 2))
        (out.1, retryDelay :: out.2)

/-- Last-resort tier of `getValidTab`: tabs with an id, a url, and a url
that does not start with `chrome://` (note: other internal pages such as
`about:` or `chrome-extension://` pass this filter). -/
def lastResortTabs (allTabs : List Tab) : List Tab :=
  allTabs.filter
    (fun t => truthyInt t.id && truthyStr t.url &&
      !(strStartsWith (t.url.getD "") "chrome://"))

/-- Fallback tiers of `getValidTab` over `chrome.tabs.query({})`: first the
first tab flagged active (if it has an id and a url), then the first
last-resort tab. -/
def getValidTabFallback (allTabs : List Tab) : Option Tab :=
  let activeTabs := allTabs.filter (fun t => t.active)
  match activeTabs.head? with
  | some t =>
    if truthyInt t.id && truthyStr t.url then some t
    else (lastResortTabs allTabs).head?
  | none => (lastResortTabs allTabs).head?

/-- Embedding of `getValidTab()` with its default arguments `maxRetries = 5`,
`retryDelay = 1000`: five attempts against the active tab of the current
window (query results `q1..q5`), then the fallback tiers over all open tabs.
Returns the resolved tab (or none) and the waits slept. -/
def getValidTab (q1 q2 q3 q4 q5 : List Tab) (allTabs : List Tab) :
    Option Tab × List ℚ :=
  let out := getValidTabAttempts [q1, q2, q3, q4, q5] 1000
  match out.1 with
  | some tab => (some tab, out.2)
  | none => (getValidTabFallback allTabs, out.2)

theorem getValidTabAttempts_cons_eq (tabs : List Tab) (rest : List (List Tab))
    (d : ℚ) :
    getValidTabAttempts (tabs :: rest) d =
      (match attemptPick tabs with
      | some tab => (some tab, [])
      | none =>
        match rest with
        | [] => (none, [])
        | _ :: _ =>
          let out := getValidTabAttempts rest (d * (3 / 2))
          (out.1, d :: out.2)) := rfl

theorem getValidTabAttempts_fst_none (qs : List (List Tab)) (d : ℚ) :
    (getValidTabAttempts qs d).1 = none ↔ ∀ q ∈ qs, attemptPick q = none := by
  induction qs generalizing d with
  | nil => simp [getValidTabAttempts]
  | cons tabs rest ih =>
    rw [getValidTabAttempts_cons_eq]
    cases hp : attemptPick tabs with
    | some t =>
      constructor
      · intro h; cases h
      · intro h
        have := h tabs (List.mem_cons_self tabs rest)
        rw [hp] at this; cases this
    | none =>
      cases rest with
      | nil =>
        simp only [List.mem_singleton]
        constructor
        · intro _ q hq; rw [hq]; exact hp
        · intro _; trivial
      | cons r rs =>
        show (getValidTabAttempts (r :: rs) (d * (3 / 2))).1 = none ↔ _
        rw [ih (d * (3 / 2))]
        constructor
        · intro h q hq
          rcases List.mem_cons.mp hq with rfl | hq'
          · exact hp
          · exact h q hq'
        · intro h q hq
          exact h q (List.mem_cons_of_mem _ hq)

theorem getValidTabFallback_eq_none (allTabs : List Tab) :
    getValidTabFallback allTabs = none ↔
      (∀ t ∈ (allTabs.filter (fun tb => tb.active)).head?,
        (truthyInt t.id && truthyStr t.url) = false)
      ∧ (lastResortTabs allTabs).head? = none := by
  cases ha : (allTabs.filter (fun tb => tb.active)).head? with
  | none => simp [getValidTabFallback, ha]
  | some t =>
    simp only [getValidTabFallback, ha, Option.mem_def, Option.some.injEq]
    cases hu : (truthyInt t.id && truthyStr t.url) with
    | true =>
      simp only [if_pos rfl]
      constructor
      · intro h; cases h
      · intro h
        have := h.1 t rfl
        rw [hu] at this; cases this
    | false =>
      simp only [Bool.false_eq_true, if_false]
      constructor
      · intro h
        exact ⟨fun t' ht' => by rw [← ht']; exact hu, h⟩
      · intro h; exact h.2

/-- C7 (amended): tab resolution makes up to 5 attempts against the active
tab of the current window with waits 1000ms, 1500ms, 2250ms, 3375ms (1s
initial, growing by the factor 1.5); when they are exhausted it falls back
first to the first tab flagged active among all open tabs, then to the
first tab with an id and a nonempty address not starting with chrome://
(which admits other internal pages such as about: — see the
counterexample); it returns none exactly when all three tiers fail. -/
theorem getValidTab_tiers :
    (∀ q1 q2 q3 q4 q5 allTabs t, attemptPick q1 = some t →
      getValidTab q1 q2 q3 q4 q5 allTabs = (some t, []))
    ∧ (∀ q1 q2 q3 q4 q5 allTabs,
        attemptPick q1 = none → attemptPick q2 = none → attemptPick q3 = none →
        attemptPick q4 = none → attemptPick q5 = none →
        getValidTab q1 q2 q3 q4 q5 allTabs =
          (getValidTabFallback allTabs, [1000, 1500, 2250, 3375]))
    ∧ (∀ allTabs t, (allTabs.filter (fun tb => tb.active)).head? = some t →
        (truthyInt t.id && truthyStr t.url) = true →
        getValidTabFallback allTabs = some t)
    ∧ (∀ allTabs,
        (∀ t ∈ (allTabs.filter (fun tb => tb.active)).head?,
          (truthyInt t.id && truthyStr t.url) = false) →
        getValidTabFallback allTabs = (lastResortTabs allTabs).head?)
    ∧ (∀ q1 q2 q3 q4 q5 allTabs,
        (getValidTab q1 q2 q3 q4 q5 allTabs).1 = none ↔
          ((∀ q ∈ [q1, q2, q3, q4, q5], attemptPick q = none)
           ∧ (∀ t ∈ (allTabs.filter (fun tb => tb.active)).head?,
               (truthyInt t.id && truthyStr t.url) = false)
           ∧ (lastResortTabs allTabs).head? = none)) := by
  have hfb : ∀ allTabs,
      (∀ t ∈ (allTabs.filter (fun tb => tb.active)).head?,
        (truthyInt t.id && truthyStr t.url) = false) →
      getValidTabFallback allTabs = (lastResortTabs allTabs).head? := by
    intro allTabs h
    rw [getValidTabFallback]
    cases ha : (allTabs.filter (fun tb => tb.active)).head? with
    | none => rfl
    | some t =>
      have hu := h t (by rw [Option.mem_def, ha])
      simp [hu]
  refine ⟨?_, ?_, ?_, hfb, ?_⟩
  · intro q1 q2 q3 q4 q5 allTabs t h
    simp [getValidTab, getValidTabAttempts_cons_eq, h]
  · intro q1 q2 q3 q4 q5 allTabs h1 h2 h3 h4 h5
    simp only [getValidTab, getValidTabAttempts_cons_eq, h1, h2, h3, h4, h5]
    norm_num
  · intro allTabs t ha hu
    rw [getValidTabFallback]
    simp [ha, hu]
  · intro q1 q2 q3 q4 q5 allTabs
    rw [getValidTab]
    cases hA : (getValidTabAttempts [q1, q2, q3, q4, q5] 1000).1 with
    | some t =>
      simp only []
      constructor
      · intro h; cases h
      · intro ⟨hall, _, _⟩
        have hnone : (getValidTabAttempts [q1, q2, q3, q4, q5] 1000).1 = none :=
          (getValidTabAttempts_fst_none _ _).mpr hall
        rw [hA] at hnone; cases hnone
    | none =>
      simp only []
      rw [getValidTabAttempts_fst_none] at hA
      rw [getValidTabFallback_eq_none]
      constructor
      · intro ⟨h1, h2⟩; exact ⟨hA, h1, h2⟩
      · intro ⟨_, h1, h2⟩; exact ⟨h1, h2⟩

theorem getValidTab_tiers_witness :
    getValidTab [⟨some 7, some "https://a.example", some "complete", true⟩]
        [] [] [] [] [] =
      (some ⟨some 7, some "https://a.example", some "complete", true⟩, [])
    ∧ getValidTab [] [] [] [] []
        [⟨some 3, some "https://b.example", some "complete", true⟩] =
      (some ⟨some 3, some "https://b.example", some "complete", true⟩,
       [1000, 1500, 2250, 3375])
    ∧ getValidTabFallback
        [⟨some 3, some "https://b.example", some "complete", true⟩] =
      some ⟨some 3, some "https://b.example", some "complete", true⟩
    ∧ getValidTabFallback
        [⟨some 4, some "https://c.example", some "complete", false⟩] =
      (lastResortTabs
        [⟨some 4, some "https://c.example", some "complete", false⟩]).head? := by
  refine ⟨getValidTab_tiers.1 _ _ _ _ _ _ _ (by decide), ?_, ?_, ?_⟩
  · rw [getValidTab_tiers.2.1 _ _ _ _ _ _ (by decide) (by decide) (by decide)
      (by decide) (by decide)]
    decide
  · exact getValidTab_tiers.2.2.1 _ _ (by decide) (by decide)
  · exact getValidTab_tiers.2.2.2.1 _ (by decide)

/-- Open-tab pool for the C7 counterexample: a single inactive tab showing
an internal browser page. -/
def aboutBlankTab : Tab := ⟨some 1, some "about:blank", some "complete", false⟩

/-- C7 counterexample: with all five active-tab attempts empty and the tab
pool containing only an about:blank tab, the last-resort tier returns that
tab even though about:blank is an internal browser page (the URL-validity
predicate rejects it), contradicting the claim that the final tier only
yields tabs that are not internal browser pages. -/
theorem getValidTab_internal_page_counterexample :
    (getValidTab [] [] [] [] [] [aboutBlankTab]).1 = some aboutBlankTab
    ∧ isValidUrl "about:blank" = false := by
  constructor
  · decide
  · decide

/-- The in-memory `activeSession` record of the background scripts. -/
structure SessionRec where
  taskId : String
  status : SessionStatus
  isPaused : Option Bool
  isRunning : Option Bool
deriving DecidableEq, Repr

/-- The `{actions?, is_done?}` object inside a server update response; the
action payload is not inspected by the control flow and is omitted. -/
structure UpdateResult where
  is_done : Option Bool
deriving DecidableEq, Repr

/-- The `data` object of a stored server response. -/
structure UpdateData where
  result : Option UpdateResult
deriving DecidableEq, Repr

/-- The stored `lastUpdateResponse` record. -/
structure LastUpdateResponse where
  timestamp : String
  task_id : String
  data : Option UpdateData
deriving DecidableEq, Repr

/-- Status tag of the stored `currentDOMUpdate` record. -/
inductive DOMUpdateStatus where
  | waiting_for_server
  | completed
  | error
deriving DecidableEq, Repr

/-- The stored `currentDOMUpdate` record (timestamps and result payload are
not observed by any claim and are omitted). -/
structure CurrentDOMUpdateRec where
  task_id : String
  status : DOMUpdateStatus
deriving DecidableEq, Repr

/-- One entry of the stored `iterationResults` array (the action results it
carries are never inspected by the control flow). -/
structure IterationResultRec where
  task_id : String
deriving DecidableEq, Repr

/-- The stored `taskState` record from types.ts.  Every field is optional
because the scripts build it by spreading over `result.taskState || {}`. -/
structure TaskStateRec where
  taskId : Option String
  status : Option TaskStatus
  task : Option String
  isRunning : Option Bool
  iterations : Option Nat
  isPaused : Option Bool
  processingStatus : Option ProcessingStatus
  lastUpdateTimestamp : Option String
deriving DecidableEq, Repr

/-- The empty JavaScript object used as the default when `taskState` is
absent. -/
def TaskStateRec.empty : TaskStateRec :=
  ⟨none, none, none, none, none, none, none, none⟩

/-- The `chrome.storage.local` keys the control plane reads and writes; a
`none` value is an absent key. -/
structure Storage where
  activeSession : Option SessionRec
  taskState : Option TaskStateRec
  currentDOMUpdate : Option CurrentDOMUpdateRec
  lastUpdateResponse : Option LastUpdateResponse
  iterationResults : Option (List IterationResultRec)
deriving DecidableEq, Repr

/-- Observable side effects of the background scripts: storage writes of
the session record, runtime broadcasts, tab messages and navigation. -/
inductive Event where
  | persistSession (sess : Option SessionRec)
  | createTaskCall (task : String)
  | navigateToGoogle
  | invalidURL
  | iterationUpdate (n : Nat)
  | processingStatusUpdate (task_id : String) (status : ProcessingStatus)
  | pauseStateChanged (paused : Bool)
  | stopMonitoringBroadcast (status : TaskStatus)
  | stopAutomationToTab
  | workflowReset
deriving DecidableEq, Repr

/-- Module-level mutable globals of a background script. -/
structure BgMemory where
  currentIterations : Nat
  isPaused : Bool
  activeSession : Option SessionRec
  monitoringInterval : Bool
deriving DecidableEq, Repr

/-- Full background-script state: globals plus durable storage. -/
structure BgState where
  mem : BgMemory
  store : Storage
deriving DecidableEq, Repr

/-- Embedding of `updateProcessingStatus(task_id, status)`: merge the new processing
status and a timestamp into `taskState` (defaulting to the empty object)
and broadcast the change. -/
def updateProcessingStatus (task_id : String) (status : ProcessingStatus)
    (now : String) (store : Storage) : Storage × List Event :=
  let taskState := store.taskState.getD TaskStateRec.empty
  let taskState := { taskState with
    processingStatus := some status, lastUpdateTimestamp := some now }
  ({ store with taskState := some taskState },
   [.processingStatusUpdate task_id status])

/-- Embedding of `stopMonitoring(finalStatus = 'idle')` of the primary background
script: reset the globals, merge the final status into `taskState`, remove
the four per-task storage keys, message the active tab to stop, and
broadcast the stop.  (The tab message is emitted unconditionally here; in
the source it is skipped when no active tab exists, a distinction no claim
observes.) -/
def stopMonitoring (finalStatus : TaskStatus) (s : BgState) :
    BgState × List Event :=
  let mem : BgMemory :=
    { currentIterations := 0, isPaused := false, activeSession := none,
      monitoringInterval := s.mem.monitoringInterval }
  let ts := s.store.taskState.getD TaskStateRec.empty
  let ts := { ts with
    status := some finalStatus, isRunning := some false, isPaused := some false }
  let store := { s.store with
    taskState := some ts, activeSession := none, currentDOMUpdate := none,
    lastUpdateResponse := none, iterationResults := none }
  (⟨mem, store⟩, [.stopAutomationToTab, .stopMonitoringBroadcast finalStatus])

/-- Embedding of `stopMonitoring()` of the legacy background script: clear the polling
interval and, when a `taskState` exists, reset its processing status to
idle and clear `currentDOMUpdate`.  Nothing else is touched. -/
def stopMonitoringV1 (now : String) (s : BgState) : BgState :=
  let mem := { s.mem with monitoringInterval := false }
  match s.store.taskState with
  | some ts =>
    let ts' := { ts with
      processingStatus := some ProcessingStatus.idle,
      lastUpdateTimestamp := some now }
    ⟨mem, { s.store with taskState := some ts', currentDOMUpdate := none }⟩
  | none => ⟨mem, s.store⟩

/-- Embedding of `pauseMonitoring()`: set the pause flag, mark and persist the session's
`isPaused`, record the paused processing status when a `taskState` exists,
and broadcast the pause-state change. -/
def pauseMonitoring (now : String) (s : BgState) : BgState × List Event :=
  let mem1 := { s.mem with isPaused := true }
  let step2 :=
    match s.mem.activeSession with
    | some sess =>
      let sess' := { sess with isPaused := some true }
      ({ mem1 with activeSession := some sess' },
       { s.store with activeSession := some sess' },
       [Event.persistSession (some sess')])
    | none => (mem1, s.store, ([] : List Event))
  let step3 :=
    match step2.2.1.taskState with
    | some _ =>
      updateProcessingStatus
        ((step2.1.activeSession.map SessionRec.taskId).getD "")
        ProcessingStatus.paused now step2.2.1
    | none => (step2.2.1, ([] : List Event))
  (⟨step2.1, step3.1⟩, step2.2.2 ++ step3.2 ++ [.pauseStateChanged true])

/-- Embedding of `resumeMonitoring()`: clear the pause flag, mark and persist the
session's `isPaused := false`, record the idle processing status when a
`taskState` exists, and broadcast the pause-state change. -/
def resumeMonitoring (now : String) (s : BgState) : BgState × List Event :=
  let mem1 := { s.mem with isPaused := false }
  let step2 :=
    match s.mem.activeSession with
    | some sess =>
      let sess' := { sess with isPaused := some false }
      ({ mem1 with activeSession := some sess' },
       { s.store with activeSession := some sess' },
       [Event.persistSession (some sess')])
    | none => (mem1, s.store, ([] : List Event))
  let step3 :=
    match step2.2.1.taskState with
    | some _ =>
      updateProcessingStatus
        ((step2.1.activeSession.map SessionRec.taskId).getD "")
        ProcessingStatus.idle now step2.2.1
    | none => (step2.2.1, ([] : List Event))
  (⟨step2.1, step3.1⟩, step2.2.2 ++ step3.2 ++ [.pauseStateChanged false])

/-- Reply sent back to the caller of the start-task message
(`{task_id}` or `{error}`). -/
inductive StartResponse where
  | ok (task_id : String)
  | error (message : String)
deriving DecidableEq, Repr

/-- Embedding of `handleStartTask` of the primary background script: optionally
redirect an invalid current tab to Google, stop any existing session
(final status idle), then POST /tasks/create; on HTTP 200 record and
persist a fresh active session and answer with the new task id; a non-200
status answers with an error; a thrown error stops monitoring with status
error.  `create` is the oracle for the HTTP call: the `(task_id, status)`
reply or a thrown error. -/
def handleStartTask (task : String) (currentTab : Option Tab)
    (create : Except Unit (String × Nat)) (s : BgState) :
    BgState × StartResponse × List Event :=
  let navEvs : List Event :=
    match currentTab with
    | some tab =>
      if truthyStr tab.url && !(isValidUrl (tab.url.getD "")) then
        [.navigateToGoogle]
      else []
    | none => []
  let stopped :=
    match s.mem.activeSession with
    | some _ => stopMonitoring .idle s
    | none => (s, ([] : List Event))
  match create with
  | .error _ =>
    let stopped2 := stopMonitoring .error stopped.1
    (stopped2.1, .error "Failed to create task",
     navEvs ++ stopped.2 ++ [.createTaskCall task] ++ stopped2.2)
  | .ok (task_id, status) =>
    if status != 200 then
      (stopped.1, .error "Failed to create task",
       navEvs ++ stopped.2 ++ [.createTaskCall task])
    else
      let sess : SessionRec :=
        { taskId := task_id, status := .active, isPaused := some false,
          isRunning := none }
      (⟨{ stopped.1.mem with activeSession := some sess },
        { stopped.1.store with activeSession := some sess }⟩,
       .ok task_id,
       navEvs ++ stopped.2 ++ [.createTaskCall task, .persistSession (some sess)])

/-- The legacy start handler's join test:
`activeSession?.taskId && activeSession.status === 'active'`. -/
def sessionJoinable : Option SessionRec → Bool
  | some sess => sess.taskId != "" && sess.status == SessionStatus.active
  | none => false

/-- Embedding of `handleStartTask` of the legacy background script: when an active
session with a truthy task id exists, answer with its id and do nothing
else (idempotent join); otherwise POST /tasks/create and record, persist
and answer with the fresh session. -/
def handleStartTaskV1 (task : String) (create : Except Unit String)
    (s : BgState) : BgState × StartResponse × List Event :=
  if sessionJoinable s.mem.activeSession then
    (s, .ok ((s.mem.activeSession.map SessionRec.taskId).getD ""), [])
  else
    match create with
    | .error _ => (s, .error "Failed to create task", [.createTaskCall task])
    | .ok task_id =>
      let sess : SessionRec :=
        { taskId := task_id, status := .active, isPaused := some false,
          isRunning := none }
      (⟨{ s.mem with activeSession := some sess },
        { s.store with activeSession := some sess }⟩,
       .ok task_id, [.createTaskCall task, .persistSession (some sess)])

/-- Signal `storageData.activeSession?.status === 'completed'`. -/
def sessionDoneB (store : Storage) : Bool :=
  match store.activeSession with
  | some sess => sess.status == SessionStatus.completed
  | none => false

/-- Signal `storageData.lastUpdateResponse?.data?.result?.is_done === true`. -/
def lastUpdateDoneB (store : Storage) : Bool :=
  match store.lastUpdateResponse with
  | some lur =>
    match lur.data with
    | some d =>
      match d.result with
      | some r => r.is_done == some true
      | none => false
    | none => false
  | none => false

/-- Signal `storageData.taskState?.processingStatus === 'completed'`. -/
def processingDoneB (store : Storage) : Bool :=
  match store.taskState with
  | some ts => ts.processingStatus == some ProcessingStatus.completed
  | none => false

/-- The `check_processing_status` handler of the primary background
script: the disjunction of the three completion signals over one storage
snapshot. -/
def checkProcessingStatusHandler (store : Storage) : Bool :=
  sessionDoneB store || lastUpdateDoneB store || processingDoneB store

/-- The `check_processing_status` handler of the legacy background script:
only the session's own status is consulted. -/
def checkProcessingStatusV1 (store : Storage) : Bool :=
  sessionDoneB store

/-- Embedding of `checkIfProcessingDone` from the content-side processor: first check
the three signals in storage directly; only when all are false fall back to
the message-based check, whose reply `backendResp` counts only when it
carries a boolean `isDone` field. -/
def checkIfProcessingDone (store : Storage) (backendResp : Option Bool) :
    Bool :=
  let isDone := sessionDoneB store || lastUpdateDoneB store || processingDoneB store
  if isDone then true
  else backendResp.getD false

/-- Spec-side completion signal (a): the session's own terminal status. -/
def SessionDone (store : Storage) : Prop :=
  ∃ sess, store.activeSession = some sess ∧ sess.status = SessionStatus.completed

/-- Spec-side completion signal (b): the is_done flag of the last stored
server response. -/
def LastUpdateDone (store : Storage) : Prop :=
  ∃ lur d r, store.lastUpdateResponse = some lur ∧ lur.data = some d ∧
    d.result = some r ∧ r.is_done = some true

/-- Spec-side completion signal (c): the tracked processing status reached
completed. -/
def ProcessingDone (store : Storage) : Prop :=
  ∃ ts, store.taskState = some ts ∧
    ts.processingStatus = some ProcessingStatus.completed

theorem sessionDoneB_iff (store : Storage) :
    sessionDoneB store = true ↔ SessionDone store := by
  cases h : store.activeSession with
  | none => simp [sessionDoneB, SessionDone, h]
  | some sess => simp [sessionDoneB, SessionDone, h]

theorem lastUpdateDoneB_iff (store : Storage) :
    lastUpdateDoneB store = true ↔ LastUpdateDone store := by
  cases h : store.lastUpdateResponse with
  | none => simp [lastUpdateDoneB, LastUpdateDone, h]
  | some lur =>
    cases hd : lur.data with
    | none => simp [lastUpdateDoneB, LastUpdateDone, h, hd]
    | some d =>
      cases hr : d.result with
      | none => simp [lastUpdateDoneB, LastUpdateDone, h, hd, hr]
      | some r => simp [lastUpdateDoneB, LastUpdateDone, h, hd, hr]

theorem processingDoneB_iff (store : Storage) :
    processingDoneB store = true ↔ ProcessingDone store := by
  cases h : store.taskState with
  | none => simp [processingDoneB, ProcessingDone, h]
  | some ts => simp [processingDoneB, ProcessingDone, h]

/-- C3 (amended): in the primary background script the
check_processing_status handler, and checkIfProcessingDone both on its own
storage read and through the message fallback, return done exactly when at
least one of the three signals holds (session status completed, last
response is_done true, processing status completed); the legacy
background script's handler instead consults only the session status
(see the counterexample). -/
theorem completion_check_multisourced :
    (∀ store, checkProcessingStatusHandler store = true ↔
      (SessionDone store ∨ LastUpdateDone store ∨ ProcessingDone store))
    ∧ (∀ store, checkIfProcessingDone store
        (some (checkProcessingStatusHandler store)) = true ↔
      (SessionDone store ∨ LastUpdateDone store ∨ ProcessingDone store))
    ∧ (∀ store resp, checkIfProcessingDone store resp = true ↔
      ((SessionDone store ∨ LastUpdateDone store ∨ ProcessingDone store)
        ∨ resp = some true))
    ∧ (∀ store, checkProcessingStatusV1 store = true ↔ SessionDone store) := by
  have hhandler : ∀ store, checkProcessingStatusHandler store = true ↔
      (SessionDone store ∨ LastUpdateDone store ∨ ProcessingDone store) := by
    intro store
    rw [checkProcessingStatusHandler]
    simp only [Bool.or_eq_true, sessionDoneB_iff, lastUpdateDoneB_iff,
      processingDoneB_iff, or_assoc]
  have hcheck : ∀ store resp, checkIfProcessingDone store resp = true ↔
      ((SessionDone store ∨ LastUpdateDone store ∨ ProcessingDone store)
        ∨ resp = some true) := by
    intro store resp
    rw [checkIfProcessingDone]
    cases hB : (sessionDoneB store || lastUpdateDoneB store || processingDoneB store) with
    | true =>
      have hdisj : SessionDone store ∨ LastUpdateDone store ∨ ProcessingDone store := by
        have := hB
        rw [Bool.or_eq_true, Bool.or_eq_true] at this
        rcases this with (h | h) | h
        · exact Or.inl ((sessionDoneB_iff store).mp h)
        · exact Or.inr (Or.inl ((lastUpdateDoneB_iff store).mp h))
        · exact Or.inr (Or.inr ((processingDoneB_iff store).mp h))
      simp [hdisj]
    | false =>
      have hB' := hB
      rw [Bool.or_eq_false_iff, Bool.or_eq_false_iff] at hB'
      obtain ⟨⟨h1, h2⟩, h3⟩ := hB'
      have hndisj : ¬(SessionDone store ∨ LastUpdateDone store ∨ ProcessingDone store) := by
        intro h
        rcases h with h | h | h
        · have := (sessionDoneB_iff store).mpr h; rw [h1] at this; cases this
        · have := (lastUpdateDoneB_iff store).mpr h; rw [h2] at this; cases this
        · have := (processingDoneB_iff store).mpr h; rw [h3] at this; cases this
      cases resp with
      | none => simp [hndisj]
      | some b => cases b <;> simp [hndisj]
  refine ⟨hhandler, ?_, hcheck, ?_⟩
  · intro store
    rw [hcheck store (some (checkProcessingStatusHandler store))]
    constructor
    · intro h
      rcases h with h | h
      · exact h
      · exact (hhandler store).mp (by injection h)
    · intro h; exact Or.inl h
  · intro store
    rw [checkProcessingStatusV1]
    exact sessionDoneB_iff store

/-- Storage snapshot for the C3 counterexample: the session is still
active, but the last stored server response carries is_done = true. -/
def storeC3 : Storage :=
  { activeSession := some ⟨"t1", SessionStatus.active, some false, none⟩,
    taskState := none,
    currentDOMUpdate := none,
    lastUpdateResponse :=
      some ⟨"2024-01-01T00:00:00Z", "t1", some ⟨some ⟨some true⟩⟩⟩,
    iterationResults := none }

/-- C3 counterexample: the legacy check_processing_status handler answers
not-done on a snapshot where the is_done signal of the last server response
holds (and the primary handler answers done), so the legacy handler does
not implement the three-way disjunction the claim states for the
completion check. -/
theorem checkProcessingStatusV1_misses_is_done :
    checkProcessingStatusV1 storeC3 = false
    ∧ LastUpdateDone storeC3
    ∧ checkProcessingStatusHandler storeC3 = true := by
  refine ⟨rfl, ⟨_, _, _, rfl, rfl, rfl, rfl⟩, rfl⟩

/-- C4 (amended): in the primary background script, stopMonitoring is
idempotent on the state and afterwards the four per-task storage keys
(activeSession, currentDOMUpdate, lastUpdateResponse, iterationResults)
are absent and the in-memory session is cleared; the legacy background
script's stopMonitoring is also idempotent (for a fixed timestamp) but
leaves activeSession, lastUpdateResponse, iterationResults and the
in-memory session untouched, clearing only currentDOMUpdate and the
processing status (see the counterexample). -/
theorem stopMonitoring_idempotent_and_clears :
    (∀ (s : BgState) (fs : TaskStatus),
      (stopMonitoring fs (stopMonitoring fs s).1).1 = (stopMonitoring fs s).1
      ∧ (stopMonitoring fs s).1.store.activeSession = none
      ∧ (stopMonitoring fs s).1.store.currentDOMUpdate = none
      ∧ (stopMonitoring fs s).1.store.lastUpdateResponse = none
      ∧ (stopMonitoring fs s).1.store.iterationResults = none
      ∧ (stopMonitoring fs s).1.mem.activeSession = none)
    ∧ (∀ (s : BgState) (now : String),
      stopMonitoringV1 now (stopMonitoringV1 now s) = stopMonitoringV1 now s
      ∧ (stopMonitoringV1 now s).store.activeSession = s.store.activeSession
      ∧ (stopMonitoringV1 now s).store.lastUpdateResponse = s.store.lastUpdateResponse
      ∧ (stopMonitoringV1 now s).store.iterationResults = s.store.iterationResults
      ∧ (stopMonitoringV1 now s).mem.activeSession = s.mem.activeSession) := by
  constructor
  · intro s fs
    exact ⟨rfl, rfl, rfl, rfl, rfl, rfl⟩
  · intro s now
    cases hts : s.store.taskState with
    | none => simp [stopMonitoringV1, hts]
    | some ts => simp [stopMonitoringV1, hts]

/-- An active session used by several concrete states below. -/
def sessT1 : SessionRec := ⟨"t1", SessionStatus.active, some false, none⟩

/-- A fully populated background state for the C4 counterexample. -/
def sC4 : BgState :=
  ⟨⟨2, false, some sessT1, true⟩,
   ⟨some sessT1,
    some { TaskStateRec.empty with status := some TaskStatus.running },
    some ⟨"t1", DOMUpdateStatus.completed⟩,
    some ⟨"2024-01-01T00:00:00Z", "t1", some ⟨some ⟨some false⟩⟩⟩,
    some [⟨"t1"⟩]⟩⟩

/-- C4 counterexample: after the legacy stopMonitoring, the durable keys
activeSession, lastUpdateResponse and iterationResults are still present
and the in-memory session is still set, contradicting the claim that stop
leaves all four keys absent and the session cleared. -/
theorem stopMonitoringV1_leaves_state :
    (stopMonitoringV1 "2024-01-02T00:00:00Z" sC4).store.activeSession = some sessT1
    ∧ (stopMonitoringV1 "2024-01-02T00:00:00Z" sC4).mem.activeSession = some sessT1
    ∧ (stopMonitoringV1 "2024-01-02T00:00:00Z" sC4).store.lastUpdateResponse ≠ none
    ∧ (stopMonitoringV1 "2024-01-02T00:00:00Z" sC4).store.iterationResults ≠ none := by
  refine ⟨rfl, rfl, ?_, ?_⟩ <;> decide

/-- C5 (amended): pauseMonitoring sets the global pause flag and the
session's isPaused field to true (persisting the session when one exists)
and broadcasts the change, and resumeMonitoring symmetrically sets them
back to false; both are safe no-ops on the session when none exists; but
neither touches the session's lifecycle status field, which keeps its
previous value (in particular it stays active across a pause), so the
states reached by pausing have isPaused = true with status = active
(see the counterexample). -/
theorem pause_resume_flags :
    ∀ (s : BgState) (now now2 : String),
      ((pauseMonitoring now s).1.mem.isPaused = true)
      ∧ ((pauseMonitoring now s).1.mem.activeSession =
          s.mem.activeSession.map (fun sess => { sess with isPaused := some true }))
      ∧ ((pauseMonitoring now s).1.store.activeSession =
          if s.mem.activeSession.isSome then (pauseMonitoring now s).1.mem.activeSession
          else s.store.activeSession)
      ∧ (Event.pauseStateChanged true ∈ (pauseMonitoring now s).2)
      ∧ ((pauseMonitoring now s).1.mem.activeSession.map SessionRec.status =
          s.mem.activeSession.map SessionRec.status)
      ∧ ((resumeMonitoring now s).1.mem.isPaused = false)
      ∧ ((resumeMonitoring now s).1.mem.activeSession =
          s.mem.activeSession.map (fun sess => { sess with isPaused := some false }))
      ∧ ((resumeMonitoring now s).1.store.activeSession =
          if s.mem.activeSession.isSome then (resumeMonitoring now s).1.mem.activeSession
          else s.store.activeSession)
      ∧ (Event.pauseStateChanged false ∈ (resumeMonitoring now s).2)
      ∧ ((resumeMonitoring now s).1.mem.activeSession.map SessionRec.status =
          s.mem.activeSession.map SessionRec.status)
      ∧ ((resumeMonitoring now2 (pauseMonitoring now s).1).1.mem.activeSession =
          s.mem.activeSession.map (fun sess => { sess with isPaused := some false })) := by
  intro s now now2
  refine ⟨?_, ?_, ?_, ?_, ?_, ?_, ?_, ?_, ?_, ?_, ?_⟩ <;>
    cases hsess : s.mem.activeSession <;>
      cases hts : s.store.taskState <;>
        simp [pauseMonitoring, resumeMonitoring, updateProcessingStatus,
          hsess, hts]

/-- Background state for the C5 counterexample: one active, unpaused
session. -/
def sC5 : BgState :=
  ⟨⟨0, false, some sessT1, false⟩, ⟨some sessT1, none, none, none, none⟩⟩

/-- C5 counterexample: pausing an active session leaves its status field
at active while setting isPaused to true, refuting both the claim that
pause flips status to paused and the claimed invariant that isPaused =
true implies status = paused. -/
theorem pauseMonitoring_keeps_status_active :
    (pauseMonitoring "2024-01-01T00:00:00Z" sC5).1.mem.activeSession =
      some ⟨"t1", SessionStatus.active, some true, none⟩
    ∧ (pauseMonitoring "2024-01-01T00:00:00Z" sC5).1.mem.isPaused = true
    ∧ SessionStatus.active ≠ SessionStatus.paused := by
  refine ⟨rfl, rfl, by decide⟩

/-- Recognizer for remote task-creation calls in an event trace. -/
def isCreateTaskCall : Event → Bool
  | .createTaskCall _ => true
  | _ => false

/-- C2 (amended): the legacy background script's start handler is an
idempotent join — with an active session (truthy task id) it answers with
the existing task id, changes nothing and issues no task-creation call;
the primary background script's start handler instead always stops any
existing session (final status idle) and then creates a new remote task
(exactly one creation call), recording and persisting a fresh session
with status active and isPaused false and answering with the new id
(see the counterexample). -/
theorem startTask_behaviour :
    (∀ (s : BgState) (task : String) (create : Except Unit String)
        (sess : SessionRec),
      s.mem.activeSession = some sess → sess.taskId ≠ "" →
      sess.status = SessionStatus.active →
      handleStartTaskV1 task create s = (s, .ok sess.taskId, []))
    ∧ (∀ (s : BgState) (task : String) (tab : Option Tab) (id : String),
      ((handleStartTask task tab (.ok (id, 200)) s).1.mem.activeSession =
        some ⟨id, SessionStatus.active, some false, none⟩)
      ∧ ((handleStartTask task tab (.ok (id, 200)) s).1.store.activeSession =
        some ⟨id, SessionStatus.active, some false, none⟩)
      ∧ ((handleStartTask task tab (.ok (id, 200)) s).2.1 = .ok id)
      ∧ (((handleStartTask task tab (.ok (id, 200)) s).2.2.filter
            isCreateTaskCall).length = 1)) := by
  constructor
  · intro s task create sess h1 h2 h3
    have hj : sessionJoinable (some sess) = true := by
      simp [sessionJoinable, h2, h3]
    simp [handleStartTaskV1, h1, hj]
  · intro s task tab id
    refine ⟨?_, ?_, ?_, ?_⟩
    · cases hsess : s.mem.activeSession <;>
        simp [handleStartTask, stopMonitoring, hsess]
    · cases hsess : s.mem.activeSession <;>
        simp [handleStartTask, stopMonitoring, hsess]
    · cases hsess : s.mem.activeSession <;>
        simp [handleStartTask, stopMonitoring, hsess]
    · rcases tab with _ | tb
      · cases hsess : s.mem.activeSession <;>
          simp [handleStartTask, stopMonitoring, hsess, isCreateTaskCall]
      · by_cases hc : (truthyStr tb.url && !(isValidUrl (tb.url.getD ""))) = true <;>
          cases hsess : s.mem.activeSession <;>
            simp [handleStartTask, stopMonitoring, hsess, hc, isCreateTaskCall]

theorem startTask_behaviour_witness :
    handleStartTaskV1 "find the login button" (.ok "t9")
        ⟨⟨0, false, some sessT1, false⟩, ⟨some sessT1, none, none, none, none⟩⟩ =
      (⟨⟨0, false, some sessT1, false⟩, ⟨some sessT1, none, none, none, none⟩⟩,
       .ok "t1", [])
    ∧ ((handleStartTask "find the login button" none (.ok ("t7", 200))
          ⟨⟨0, false, none, false⟩, ⟨none, none, none, none, none⟩⟩).2.1 =
        .ok "t7") := by
  constructor
  · exact startTask_behaviour.1 _ _ _ sessT1 rfl (by decide) rfl
  · exact (startTask_behaviour.2 _ "find the login button" none "t7").2.2.1

/-- Background state for the C2 counterexample: an active session with
task id t1 exists in memory and storage. -/
def sC2 : BgState :=
  ⟨⟨0, false, some sessT1, false⟩, ⟨some sessT1, none, none, none, none⟩⟩

/-- C2 counterexample: with an active session t1 in place, the primary
start handler answers with the fresh id t2 (not the existing t1) and
issues one remote task-creation call, refuting the claim that start with
an active session returns the existing id unchanged and creates nothing. -/
theorem handleStartTask_not_idempotent :
    ((handleStartTask "task" none (.ok ("t2", 200)) sC2).2.1 = .ok "t2")
    ∧ (StartResponse.ok "t2" ≠ StartResponse.ok "t1")
    ∧ (((handleStartTask "task" none (.ok ("t2", 200)) sC2).2.2.filter
          isCreateTaskCall).length = 1) := by
  refine ⟨rfl, by decide, rfl⟩

/-- State visible to the monitoring loop of the primary background script:
the script state plus the `isUpdateInProgress` guard declared by
`startMonitoring`. -/
structure LoopState where
  bg : BgState
  isUpdateInProgress : Bool
deriving DecidableEq, Repr

/-- Per-iteration environment of the primary loop: the tab resolved by
getValidTab (none when all its tiers fail) and the bridge behaviour for the
sendProcessMessage attempts. -/
structure IterEnv where
  tab : Option Tab
  responses : Nat → Except String ProcResponse

/-- Outcome of the synchronous prefix of `processOneIteration`. -/
inductive BeginResult where
  | skip (shouldContinue : Bool)
  | enter
deriving DecidableEq, Repr

/-- The synchronous prefix of `processOneIteration`, up to its first await:
return false when no active session exists, true (skip) when paused or when
an update is already in progress; otherwise set the in-progress guard,
increment the iteration counter and enter the body. -/
def iterBegin (st : LoopState) : LoopState × BeginResult :=
  match st.bg.mem.activeSession with
  | none => (st, .skip false)
  | some sess =>
    if sess.status != SessionStatus.active then (st, .skip false)
    else if st.bg.mem.isPaused then (st, .skip true)
    else if st.isUpdateInProgress then (st, .skip true)
    else
      ({ bg := ⟨{ st.bg.mem with
            currentIterations := st.bg.mem.currentIterations + 1 },
          st.bg.store⟩,
         isUpdateInProgress := true }, .enter)

/-- The `finally` clause of the iteration body: clear the in-progress
guard. -/
def finallyClear (st : LoopState) : LoopState :=
  { st with isUpdateInProgress := false }

/-- The body of `processOneIteration` after the guard was set and the
counter incremented: resolve the tab (giving up without a stop call when
none is found), check its URL, dispatch through sendProcessMessage, record
the iteration count in taskState, broadcast the iteration update, and
interpret the reply — isDone marks the session completed (persisted) and
stops with status completed; a failed reply or a thrown error stops with
status error.  Every path runs the finally clause. -/
def iterFinish (env : IterEnv) (st : LoopState) : LoopState × Bool × List Event :=
  match env.tab with
  | none => (finallyClear st, false, [])
  | some tab =>
    let url := tab.url.getD ""
    if !(isValidUrl url) then
      (finallyClear st, false, [.invalidURL])
    else
      match (sendProcessMessage env.responses 10).result with
      | .error _ =>
        let stopped := stopMonitoring .error st.bg
        (finallyClear ⟨stopped.1, st.isUpdateInProgress⟩, false, stopped.2)
      | .ok response =>
        let store1 :=
          match st.bg.store.taskState with
          | some ts =>
            { st.bg.store with
              taskState := some { ts with
                iterations := some st.bg.mem.currentIterations } }
          | none => st.bg.store
        let bg1 : BgState := ⟨st.bg.mem, store1⟩
        let evs1 : List Event := [.iterationUpdate st.bg.mem.currentIterations]
        if response.success then
          if response.isDone.getD false then
            let step2 :=
              match bg1.mem.activeSession with
              | some sess =>
                let sess' := { sess with status := SessionStatus.completed }
                ((⟨{ bg1.mem with activeSession := some sess' },
                   { bg1.store with activeSession := some sess' }⟩ : BgState),
                 [Event.persistSession (some sess')])
              | none => (bg1, ([] : List Event))
            let stopped := stopMonitoring .completed step2.1
            (finallyClear ⟨stopped.1, st.isUpdateInProgress⟩, false,
             evs1 ++ step2.2 ++ stopped.2)
          else
            (finallyClear ⟨bg1, st.isUpdateInProgress⟩, true, evs1)
        else
          let stopped := stopMonitoring .error bg1
          (finallyClear ⟨stopped.1, st.isUpdateInProgress⟩, false,
           evs1 ++ stopped.2)

/-- Embedding of `processOneIteration` of the primary background script: guard checks,
then the body with its finally clause; returns the next state, the
should-continue flag and the emitted events. -/
def processOneIteration (env : IterEnv) (st : LoopState) :
    LoopState × Bool × List Event :=
  match iterBegin st with
  | (st', .skip b) => (st', b, [])
  | (st', .enter) => iterFinish env st'

/-- The `while (activeSession && activeSession.status === 'active')`
monitoring loop: on each tick, when not paused, run one iteration and stop
when it returns false; paused ticks only wait.  One list element is one
tick's environment. -/
def monitoringLoop : List IterEnv → LoopState → LoopState × List Event
  | [], st => (st, [])
  | env :: rest, st =>
    match st.bg.mem.activeSession with
    | some sess =>
      if sess.status == SessionStatus.active then
        if !st.bg.mem.isPaused then
          let step := processOneIteration env st
          if step.2.1 then
            let next := monitoringLoop rest step.1
            (next.1, step.2.2 ++ next.2)
          else (step.1, step.2.2)
        else monitoringLoop rest st
      else (st, [])
    | none => (st, [])

/-- The opening of `startMonitoring`: clear any previous interval and reset
the iteration counter and the pause flag. -/
def startMonitoringInit (bg : BgState) : BgState :=
  ⟨{ bg.mem with
      monitoringInterval := false, currentIterations := 0, isPaused := false },
   bg.store⟩

/-- Embedding of `startMonitoring(task_id)` of the primary background script: reset the
globals, validate an initial tab (stopping with status error when none
resolves), navigate an invalid initial URL to Google (stopping with status
error when the navigation throws, as signalled by `navOk`), then run the
monitoring loop with a fresh in-progress guard. -/
def startMonitoring (initialTab : Option Tab) (navOk : Bool)
    (envs : List IterEnv) (bg : BgState) : BgState × List Event :=
  let bg1 := startMonitoringInit bg
  match initialTab with
  | none =>
    let stopped := stopMonitoring .error bg1
    (stopped.1, stopped.2)
  | some tab =>
    let url := tab.url.getD ""
    let navEvs : List Event :=
      if !(isValidUrl url) then [.navigateToGoogle] else []
    if !(isValidUrl url) && !navOk then
      let stopped := stopMonitoring .error bg1
      (stopped.1, navEvs ++ stopped.2)
    else
      let looped := monitoringLoop envs ⟨bg1, false⟩
      (looped.1.bg, navEvs ++ looped.2)

/-- Interleaving events against one session, in the three forms the
source admits: a `startMonitoring` message (which allocates a fresh
`isUpdateInProgress` local — nothing deduplicates a duplicate start in the
primary script, whose `monitoringInterval` is never assigned, leaving the
`clearInterval` check dead), a tick of one of the spawned loop
invocations, or the completion of the oldest iteration body executing in
one invocation. -/
inductive DupEvent where
  | startMsg (initialTab : Option Tab) (navOk : Bool)
  | trigger (i : Nat) (env : IterEnv)
  | finish (i : Nat)

/-- Interleaving state: the shared globals and storage, plus one entry per
live `startMonitoring` invocation holding that invocation's local
`isUpdateInProgress` guard and the bodies it currently has executing (as a
list, so overlapping bodies are representable). -/
structure DupMachineState where
  bg : BgState
  loops : List (Bool × List IterEnv)

/-- One interleaving step.  A start message runs the opening of
`startMonitoring` (reset the globals, resolve and validate the initial
tab, stopping with status error on failure) and on success spawns a new
loop invocation with a clear guard; the start steps are taken atomically
here, which only restricts the expressible schedules.  A tick of
invocation `i` runs the synchronous prefix of an iteration against that
invocation's own guard; only when it admits does a body start executing
there.  A finish completes the oldest body of invocation `i`, including
its finally clause on that invocation's guard. -/
def dupStep : DupEvent → DupMachineState → DupMachineState
  | .startMsg initialTab navOk, ms =>
    let bg1 := startMonitoringInit ms.bg
    match initialTab with
    | none => { bg := (stopMonitoring .error bg1).1, loops := ms.loops }
    | some tab =>
      if !(isValidUrl (tab.url.getD "")) && !navOk then
        { bg := (stopMonitoring .error bg1).1, loops := ms.loops }
      else
        { bg := bg1, loops := ms.loops ++ [(false, [])] }
  | .trigger i env, ms =>
    match ms.loops.get? i with
    | none => ms
    | some (guard, execs) =>
      match iterBegin ⟨ms.bg, guard⟩ with
      | (st', .skip _) =>
        { bg := st'.bg, loops := ms.loops.set i (st'.isUpdateInProgress, execs) }
      | (st', .enter) =>
        { bg := st'.bg,
          loops := ms.loops.set i (st'.isUpdateInProgress, execs ++ [env]) }
  | .finish i, ms =>
    match ms.loops.get? i with
    | none => ms
    | some (guard, execs) =>
      match execs with
      | [] => ms
      | env :: rest =>
        let st' := (iterFinish env ⟨ms.bg, guard⟩).1
        { bg := st'.bg, loops := ms.loops.set i (st'.isUpdateInProgress, rest) }

/-- Before any start message: no loop invocation exists. -/
def initDup (bg : BgState) : DupMachineState := ⟨bg, []⟩

/-- Run a sequence of interleaving events. -/
def runDup (evs : List DupEvent) (ms : DupMachineState) : DupMachineState :=
  evs.foldl (fun s e => dupStep e s) ms

/-- Total number of iteration bodies executing across all live loop
invocations of the session. -/
def totalExecuting (ms : DupMachineState) : Nat :=
  (ms.loops.map (fun l => l.2.length)).sum

/-- Per-iteration environment of the legacy loop: the
`chrome.tabs.query({active: true, currentWindow: true})` result and the
ping/inject/singleDOMProcess outcome. -/
structure IterEnvV1 where
  tabs : List Tab
  bridge : Except String ProcResponse
deriving DecidableEq, Repr

/-- Embedding of `processOneIteration` of the legacy background script: skip when paused
or already in progress; otherwise set the guard and run the body — give up
on a missing or invalid tab, treat a thrown bridge error as caught and
logged, and on a successful reply increment the counter, broadcast the
iteration update, record the count in taskState, and on isDone mark the
session completed (persisted) and stop.  A failed reply is only logged: in
particular the counter is incremented only on success.  The finally clause
clears the guard on every body path. -/
def processOneIterationV1 (now : String) (env : IterEnvV1) (st : LoopState) :
    LoopState × List Event :=
  if st.bg.mem.isPaused then (st, [])
  else if st.isUpdateInProgress then (st, [])
  else
    let st1 : LoopState := { st with isUpdateInProgress := true }
    match env.tabs.head? with
    | none => ({ st1 with isUpdateInProgress := false }, [])
    | some tab =>
      if !(truthyInt tab.id) || !(truthyStr tab.url) ||
          !(isValidUrl (tab.url.getD "")) then
        ({ st1 with isUpdateInProgress := false }, [])
      else
        match env.bridge with
        | .error _ => ({ st1 with isUpdateInProgress := false }, [])
        | .ok response =>
          if response.success then
            let mem2 := { st1.bg.mem with
              currentIterations := st1.bg.mem.currentIterations + 1 }
            let evs2 : List Event := [.iterationUpdate mem2.currentIterations]
            let store2 :=
              match st1.bg.store.taskState with
              | some ts =>
                { st1.bg.store with
                  taskState := some { ts with
                    iterations := some mem2.currentIterations } }
              | none => st1.bg.store
            if response.isDone.getD false then
              let step3 :=
                match mem2.activeSession with
                | some sess =>
                  let sess' := { sess with status := SessionStatus.completed }
                  ((⟨{ mem2 with activeSession := some sess' },
                     { store2 with activeSession := some sess' }⟩ : BgState),
                   [Event.persistSession (some sess')])
                | none => ((⟨mem2, store2⟩ : BgState), ([] : List Event))
              let stopped := stopMonitoringV1 now step3.1
              (({ bg := stopped, isUpdateInProgress := false } : LoopState),
               evs2 ++ step3.2)
            else
              (({ bg := ⟨mem2, store2⟩, isUpdateInProgress := false } : LoopState),
               evs2)
          else
            ({ st1 with isUpdateInProgress := false }, [])

/-- Recognizer for stop broadcasts in an event trace. -/
def isStopBroadcast : Event → Bool
  | .stopMonitoringBroadcast _ => true
  | _ => false

/-- Recognizer for stop broadcasts carrying status completed. -/
def isCompletedStopBroadcast : Event → Bool
  | .stopMonitoringBroadcast s => s == TaskStatus.completed
  | _ => false

theorem iterBegin_skip_state (st st' : LoopState) (b : Bool)
    (h : iterBegin st = (st', .skip b)) : st' = st := by
  cases hsess : st.bg.mem.activeSession with
  | none =>
    simp only [iterBegin, hsess, Prod.mk.injEq] at h
    exact h.1.symm
  | some sess =>
    simp only [iterBegin, hsess] at h
    split_ifs at h <;> simp only [Prod.mk.injEq] at h
    · exact h.1.symm
    · exact h.1.symm
    · exact h.1.symm
    · exact BeginResult.noConfusion h.2

theorem iterBegin_enter (st st' : LoopState)
    (h : iterBegin st = (st', .enter)) :
    st.isUpdateInProgress = false ∧ st'.isUpdateInProgress = true := by
  cases hsess : st.bg.mem.activeSession with
  | none =>
    simp only [iterBegin, hsess, Prod.mk.injEq] at h
    exact BeginResult.noConfusion h.2
  | some sess =>
    simp only [iterBegin, hsess] at h
    split_ifs at h with h1 h2 h3 <;> simp only [Prod.mk.injEq] at h
    · exact BeginResult.noConfusion h.2
    · exact BeginResult.noConfusion h.2
    · exact BeginResult.noConfusion h.2
    · refine ⟨by simpa using h3, ?_⟩
      rw [← h.1]

theorem iterFinish_clears_guard (env : IterEnv) (st : LoopState) :
    (iterFinish env st).1.isUpdateInProgress = false := by
  unfold iterFinish
  cases henv : env.tab with
  | none => rfl
  | some tab =>
    by_cases hv : isValidUrl (tab.url.getD "") = true
    · simp only [hv, Bool.not_true, Bool.false_eq_true, if_false]
      cases hres : (sendProcessMessage env.responses 10).result with
      | error e => rfl
      | ok response =>
        by_cases hs : response.success = true
        · by_cases hd : response.isDone.getD false = true
          · simp only [hs, hd, if_true]
            rfl
          · simp only [hs, hd, if_true, Bool.false_eq_true, if_false]
            rfl
        · simp only [Bool.not_eq_true] at hs
          simp only [hs, Bool.false_eq_true, if_false]
          rfl
    · simp only [Bool.not_eq_true] at hv
      simp only [hv, Bool.not_false, if_true]
      rfl

theorem iterBegin_inflight (st : LoopState)
    (h : st.isUpdateInProgress = true) :
    iterBegin st = (st, .skip false) ∨ iterBegin st = (st, .skip true) := by
  cases hsess : st.bg.mem.activeSession with
  | none => left; simp [iterBegin, hsess]
  | some sess =>
    by_cases h1 : (sess.status != SessionStatus.active) = true
    · left; simp [iterBegin, hsess, h1]
    · right
      by_cases h2 : st.bg.mem.isPaused = true
      · simp [iterBegin, hsess, h1, h2]
      · simp [iterBegin, hsess, h1, h2, h]

/-- The target tab used by the concrete loop runs below. -/
def googleTab : Tab := ⟨some 1, some "https://www.google.com", some "complete", true⟩

/-- A successful dispatch reply carrying is_done. -/
def doneResp : ProcResponse := ⟨true, some true, none⟩

/-- Iteration environment whose dispatch succeeds with isDone. -/
def envC8 : IterEnv := ⟨some googleTab, fun _ => .ok doneResp⟩

/-- A running loop state with the active session t1 and a clear guard. -/
def stC8 : LoopState :=
  ⟨⟨⟨0, false, some sessT1, false⟩, ⟨some sessT1, none, none, none, none⟩⟩, false⟩

/-- Safety property of the interleaving machine: every live loop
invocation has at most one iteration body executing, and an invocation
with a body executing has its own guard set. -/
def DupInv (ms : DupMachineState) : Prop :=
  ∀ l ∈ ms.loops, l.2.length ≤ 1 ∧ (l.2 ≠ [] → l.1 = true)

theorem list_set_get?_self {α : Type _} :
    ∀ (l : List α) (i : Nat) (a : α), l.get? i = some a → l.set i a = l := by
  intro l
  induction l with
  | nil => intro i a h; cases h
  | cons x xs ih =>
    intro i a h
    cases i with
    | zero =>
      rw [List.get?_cons_zero] at h
      injection h with h
      rw [List.set_cons_zero, h]
    | succ n =>
      rw [List.get?_cons_succ] at h
      rw [List.set_cons_succ, ih n a h]

theorem list_get?_mem {α : Type _} :
    ∀ (l : List α) (i : Nat) (a : α), l.get? i = some a → a ∈ l := by
  intro l
  induction l with
  | nil => intro i a h; cases h
  | cons x xs ih =>
    intro i a h
    cases i with
    | zero =>
      rw [List.get?_cons_zero] at h
      injection h with h
      rw [h]
      exact List.mem_cons_self a xs
    | succ n =>
      rw [List.get?_cons_succ] at h
      exact List.mem_cons_of_mem x (ih n a h)

theorem dupStep_preserves_inv (e : DupEvent) (ms : DupMachineState)
    (h : DupInv ms) : DupInv (dupStep e ms) := by
  cases e with
  | startMsg initialTab navOk =>
    intro l hl
    simp only [dupStep] at hl
    split at hl
    · exact h l hl
    · split at hl
      · exact h l hl
      · rcases List.mem_append.mp hl with hml | hml
        · exact h l hml
        · simp only [List.mem_singleton] at hml
          subst hml
          exact ⟨by simp, fun hne => absurd rfl hne⟩
  | trigger i env =>
    intro l hl
    simp only [dupStep] at hl
    split at hl
    · exact h l hl
    · rename_i guard execs hget
      split at hl
      · rename_i st' b hb
        have hst : st' = ⟨ms.bg, guard⟩ := iterBegin_skip_state _ _ _ hb
        have hmem := h (guard, execs) (list_get?_mem _ _ _ hget)
        rcases List.mem_or_eq_of_mem_set hl with hml | rfl
        · exact h l hml
        · rw [hst]
          exact ⟨hmem.1, hmem.2⟩
      · rename_i st' hb
        obtain ⟨hf0, hf1⟩ := iterBegin_enter _ _ hb
        have hmem := h (guard, execs) (list_get?_mem _ _ _ hget)
        have hguard : guard = false := hf0
        have hexecs : execs = [] := by
          by_contra hne
          have := hmem.2 hne
          rw [hguard] at this
          cases this
        rcases List.mem_or_eq_of_mem_set hl with hml | rfl
        · exact h l hml
        · subst hexecs
          exact ⟨by simp, fun _ => hf1⟩
  | finish i =>
    intro l hl
    simp only [dupStep] at hl
    split at hl
    · exact h l hl
    · rename_i guard execs hget
      split at hl
      · exact h l hl
      · rename_i env0 rest
        have hmem := h (guard, env0 :: rest) (list_get?_mem _ _ _ hget)
        have hrest : rest = [] := by
          have hlen := hmem.1
          simp only [List.length_cons] at hlen
          have h0 : rest.length = 0 := by omega
          exact List.length_eq_zero.mp h0
        subst hrest
        rcases List.mem_or_eq_of_mem_set hl with hml | rfl
        · exact h l hml
        · exact ⟨by simp, fun hne => absurd rfl hne⟩

theorem runDup_preserves_inv (evs : List DupEvent) :
    ∀ ms, DupInv ms → DupInv (runDup evs ms) := by
  induction evs with
  | nil => intro ms h; exact h
  | cons e rest ih =>
    intro ms h
    exact ih (dupStep e ms) (dupStep_preserves_inv e ms h)

/-- C1 (amended): the in-progress guard is a local of each
startMonitoring invocation, so the at-most-one guarantee it enforces is
scoped to the invocation — for every sequence of start messages, loop
ticks and body completions against one session, every live loop
invocation has at most one iteration body executing; a tick of an
invocation whose guard is set changes nothing at all (no iteration work,
no counter change); and the iteration body clears its invocation's guard
on every exit path (give-up, invalid URL, thrown error, failure,
success), in the legacy loop as well.  Across invocations the original
session-scoped property fails: duplicate start messages are not
deduplicated and spawn concurrent loops over the same session whose
iterations can overlap (see the counterexample). -/
theorem at_most_one_iteration_per_loop_invocation :
    (∀ (bg : BgState) (evs : List DupEvent),
      ∀ l ∈ (runDup evs (initDup bg)).loops, l.2.length ≤ 1)
    ∧ (∀ (ms : DupMachineState) (i : Nat) (execs : List IterEnv)
        (env : IterEnv),
        ms.loops.get? i = some (true, execs) →
        dupStep (.trigger i env) ms = ms)
    ∧ (∀ (env : IterEnv) (st : LoopState),
        (iterFinish env st).1.isUpdateInProgress = false)
    ∧ (∀ (now : String) (env : IterEnvV1) (st : LoopState),
        st.isUpdateInProgress = false →
        (processOneIterationV1 now env st).1.isUpdateInProgress = false) := by
  refine ⟨?_, ?_, iterFinish_clears_guard, ?_⟩
  · intro bg evs l hl
    have hinit : DupInv (initDup bg) := fun l hl => absurd hl (List.not_mem_nil l)
    exact (runDup_preserves_inv evs (initDup bg) hinit l hl).1
  · intro ms i execs env hget
    rcases iterBegin_inflight ⟨ms.bg, true⟩ rfl with hb | hb <;>
      (simp only [dupStep, hget, hb]
       rw [list_set_get?_self _ _ _ hget])
  · intro now env st h
    by_cases hp : st.bg.mem.isPaused = true
    · simp [processOneIterationV1, hp, h]
    · simp only [processOneIterationV1, hp, h, Bool.false_eq_true, if_false]
      cases ht : env.tabs.head? with
      | none => rfl
      | some tab =>
        by_cases hu : (!(truthyInt tab.id) || !(truthyStr tab.url) ||
            !(isValidUrl (tab.url.getD ""))) = true
        · simp only [hu, if_true]
        · simp only [Bool.not_eq_true] at hu
          simp only [hu, Bool.false_eq_true, if_false]
          cases hbr : env.bridge with
          | error e => rfl
          | ok response =>
            by_cases hs : response.success = true
            · by_cases hd : response.isDone.getD false = true
              · simp only [hs, hd, if_true]
              · simp only [hs, hd, if_true, Bool.false_eq_true, if_false]
            · simp only [Bool.not_eq_true] at hs
              simp only [hs, Bool.false_eq_true, if_false]

theorem at_most_one_iteration_per_loop_invocation_witness :
    ((false, ([] : List IterEnv)).2.length ≤ 1)
    ∧ dupStep (.trigger 0 envC8)
        ⟨stC8.bg, [(true, [envC8])]⟩ = ⟨stC8.bg, [(true, [envC8])]⟩
    ∧ (processOneIterationV1 "2024-01-01T00:00:00Z" ⟨[], .error "nope"⟩
        ⟨⟨⟨0, false, some sessT1, false⟩,
          ⟨some sessT1, none, none, none, none⟩⟩, false⟩).1.isUpdateInProgress
        = false := by
  refine ⟨?_, ?_, ?_⟩
  · exact at_most_one_iteration_per_loop_invocation.1 stC8.bg
      [.startMsg (some googleTab) true] (false, [])
      (List.mem_singleton.mpr rfl)
  · exact at_most_one_iteration_per_loop_invocation.2.1 _ 0 [envC8] envC8 rfl
  · exact at_most_one_iteration_per_loop_invocation.2.2.2 _ _ _ rfl

/-- C1 counterexample: two startMonitoring messages against the same
active session (nothing deduplicates them — the primary script's
monitoringInterval is never assigned, so its clearInterval check is dead)
spawn two loop invocations, each with its own fresh in-progress guard;
one tick of each, the second arriving while the first invocation's
iteration body is still executing, leaves two iteration bodies executing
concurrently against the single session t1, refuting the claimed
session-scoped at-most-one-in-flight property. -/
theorem duplicate_start_overlapping_iterations :
    totalExecuting (runDup
        [.startMsg (some googleTab) true, .startMsg (some googleTab) true,
         .trigger 0 envC8, .trigger 1 envC8]
        (initDup stC8.bg)) = 2
    ∧ 1 < totalExecuting (runDup
        [.startMsg (some googleTab) true, .startMsg (some googleTab) true,
         .trigger 0 envC8, .trigger 1 envC8]
        (initDup stC8.bg))
    ∧ (runDup
        [.startMsg (some googleTab) true, .startMsg (some googleTab) true,
         .trigger 0 envC8, .trigger 1 envC8]
        (initDup stC8.bg)).bg.mem.activeSession = some sessT1 := by
  refine ⟨rfl, by decide, rfl⟩

/-- C8: when a monitoring-loop iteration's dispatch succeeds with isDone,
the session is marked completed and that record persisted, the loop result
does not depend on any later tick (no further iteration is attempted), the
trace carries exactly one stopMonitoring broadcast with status completed,
and the loop ends with the session cleared by the stop. -/
theorem iteration_isDone_completes :
    ∀ (st : LoopState) (env : IterEnv) (rest : List IterEnv)
      (sess : SessionRec) (tab : Tab) (r : ProcResponse),
      st.bg.mem.activeSession = some sess →
      sess.status = SessionStatus.active →
      st.bg.mem.isPaused = false →
      st.isUpdateInProgress = false →
      env.tab = some tab →
      isValidUrl (tab.url.getD "") = true →
      (sendProcessMessage env.responses 10).result = .ok r →
      r.success = true →
      r.isDone = some true →
      (monitoringLoop (env :: rest) st = monitoringLoop [env] st)
      ∧ (((monitoringLoop (env :: rest) st).2.filter
            isCompletedStopBroadcast).length = 1)
      ∧ (Event.persistSession (some { sess with status := SessionStatus.completed })
          ∈ (monitoringLoop (env :: rest) st).2)
      ∧ ((monitoringLoop (env :: rest) st).1.bg.mem.activeSession = none) := by
  intro st env rest sess tab r h1 h2 h3 h4 h5 h6 h7 h8 h9
  cases hts : st.bg.store.taskState with
  | none =>
    simp [monitoringLoop, processOneIteration, iterBegin, iterFinish,
      finallyClear, stopMonitoring, isCompletedStopBroadcast,
      h1, h2, h3, h4, h5, h6, h7, h8, h9, hts]
  | some ts =>
    simp [monitoringLoop, processOneIteration, iterBegin, iterFinish,
      finallyClear, stopMonitoring, isCompletedStopBroadcast,
      h1, h2, h3, h4, h5, h6, h7, h8, h9, hts]

theorem iteration_isDone_completes_witness :
    (monitoringLoop [envC8, envC8] stC8 = monitoringLoop [envC8] stC8)
    ∧ (((monitoringLoop [envC8, envC8] stC8).2.filter
          isCompletedStopBroadcast).length = 1)
    ∧ (Event.persistSession (some { sessT1 with status := SessionStatus.completed })
        ∈ (monitoringLoop [envC8, envC8] stC8).2)
    ∧ ((monitoringLoop [envC8, envC8] stC8).1.bg.mem.activeSession = none) := by
  exact iteration_isDone_completes stC8 envC8 [envC8] sessT1 googleTab doneResp
    rfl rfl rfl rfl rfl (by decide) rfl rfl rfl

/-- C9 (amended): in the primary loop the counter is reset to zero when
monitoring starts; a trigger skipped for pause, re-entrancy or a
non-active session performs nothing (in particular the counter is
unchanged); entering the iteration body increments the counter exactly
once, before tab resolution and dispatch (so iterations failing there
still count, and the delivery retries inside sendProcessMessage are
invisible to it); the body itself never changes the counter except that a
stop call resets it to zero together with the rest of the globals.  In
the legacy loop the counter is instead incremented only after a
successful dispatch: an iteration whose dispatch fails leaves it
unchanged (see the counterexample). -/
theorem iteration_counter_discipline :
    (∀ bg : BgState, (startMonitoringInit bg).mem.currentIterations = 0
      ∧ (startMonitoringInit bg).mem.isPaused = false)
    ∧ (∀ (env : IterEnv) (st : LoopState) (sess : SessionRec),
        st.bg.mem.activeSession = some sess →
        sess.status = SessionStatus.active →
        st.bg.mem.isPaused = false →
        st.isUpdateInProgress = true →
        processOneIteration env st = (st, true, []))
    ∧ (∀ (env : IterEnv) (st : LoopState) (sess : SessionRec),
        st.bg.mem.activeSession = some sess →
        sess.status = SessionStatus.active →
        st.bg.mem.isPaused = true →
        processOneIteration env st = (st, true, []))
    ∧ (∀ (st st' : LoopState), iterBegin st = (st', .enter) →
        st'.bg.mem.currentIterations = st.bg.mem.currentIterations + 1)
    ∧ (∀ (env : IterEnv) (st : LoopState),
        (iterFinish env st).1.bg.mem.currentIterations =
          (if (iterFinish env st).2.2.any isStopBroadcast then 0
           else st.bg.mem.currentIterations))
    ∧ (∀ (now : String) (env : IterEnvV1) (st : LoopState) (tab : Tab)
        (r : ProcResponse),
        st.bg.mem.isPaused = false →
        st.isUpdateInProgress = false →
        env.tabs.head? = some tab →
        truthyInt tab.id = true →
        truthyStr tab.url = true →
        isValidUrl (tab.url.getD "") = true →
        env.bridge = .ok r →
        r.success = false →
        (processOneIterationV1 now env st).1.bg.mem.currentIterations =
          st.bg.mem.currentIterations) := by
  refine ⟨fun bg => ⟨rfl, rfl⟩, ?_, ?_, ?_, ?_, ?_⟩
  · intro env st sess h1 h2 h3 h4
    simp [processOneIteration, iterBegin, h1, h2, h3, h4]
  · intro env st sess h1 h2 h3
    simp [processOneIteration, iterBegin, h1, h2, h3]
  · intro st st' h
    cases hsess : st.bg.mem.activeSession with
    | none =>
      simp only [iterBegin, hsess, Prod.mk.injEq] at h
      exact BeginResult.noConfusion h.2
    | some sess =>
      simp only [iterBegin, hsess] at h
      split_ifs at h <;> simp only [Prod.mk.injEq] at h
      · exact BeginResult.noConfusion h.2
      · exact BeginResult.noConfusion h.2
      · exact BeginResult.noConfusion h.2
      · rw [← h.1]
  · intro env st
    unfold iterFinish
    cases henv : env.tab with
    | none => simp [finallyClear, isStopBroadcast]
    | some tab =>
      by_cases hv : isValidUrl (tab.url.getD "") = true
      · simp only [hv, Bool.not_true, Bool.false_eq_true, if_false]
        cases hres : (sendProcessMessage env.responses 10).result with
        | error e => simp [finallyClear, stopMonitoring, isStopBroadcast]
        | ok response =>
          by_cases hs : response.success = true
          · by_cases hd : response.isDone.getD false = true
            · cases hsess : st.bg.mem.activeSession <;>
                simp [hs, hd, hsess, finallyClear, stopMonitoring,
                  isStopBroadcast]
            · simp [hs, hd, finallyClear, isStopBroadcast]
          · simp only [Bool.not_eq_true] at hs
            simp [hs, finallyClear, stopMonitoring, isStopBroadcast]
      · simp only [Bool.not_eq_true] at hv
        simp [hv, finallyClear, isStopBroadcast]
  · intro now env st tab r hp hf ht hid hurl hval hbr hsucc
    simp [processOneIterationV1, hp, hf, ht, hid, hurl, hval, hbr, hsucc]

/-- Loop state for the C9 counterexample: active session, not paused, no
update in progress, counter at 3. -/
def stC9 : LoopState :=
  ⟨⟨⟨3, false, some sessT1, false⟩, ⟨some sessT1, none, none, none, none⟩⟩, false⟩

/-- Legacy-loop environment for the C9 counterexample: a usable tab but a
dispatch that reports failure. -/
def envC9 : IterEnvV1 :=
  ⟨[⟨some 5, some "https://x.example", some "complete", true⟩],
   .ok ⟨false, none, some "boom"⟩⟩

/-- C9 counterexample: in the legacy loop an attempted iteration (session
active, not paused, no update in flight, valid tab, dispatch performed)
whose dispatch reports failure leaves the counter at 3 instead of
incrementing it once as the claim requires for failing iterations. -/
theorem iteration_counter_failure_not_counted :
    stC9.bg.mem.isPaused = false
    ∧ stC9.isUpdateInProgress = false
    ∧ stC9.bg.mem.activeSession = some sessT1
    ∧ envC9.tabs.head? =
        some ⟨some 5, some "https://x.example", some "complete", true⟩
    ∧ isValidUrl "https://x.example" = true
    ∧ envC9.bridge = .ok ⟨false, none, some "boom"⟩
    ∧ stC9.bg.mem.currentIterations = 3
    ∧ (processOneIterationV1 "2024-01-01T00:00:00Z" envC9 stC9).1.bg.mem.currentIterations = 3 := by
  refine ⟨rfl, rfl, rfl, rfl, by decide, rfl, rfl, by decide⟩

theorem iteration_counter_discipline_witness :
    (startMonitoringInit stC8.bg).mem.currentIterations = 0
    ∧ processOneIteration envC8 ⟨stC8.bg, true⟩ = (⟨stC8.bg, true⟩, true, [])
    ∧ processOneIteration envC8
        ⟨⟨⟨3, true, some sessT1, false⟩, stC8.bg.store⟩, false⟩ =
      (⟨⟨⟨3, true, some sessT1, false⟩, stC8.bg.store⟩, false⟩, true, [])
    ∧ (iterBegin stC8).1.bg.mem.currentIterations =
        stC8.bg.mem.currentIterations + 1
    ∧ (processOneIterationV1 "2024-01-01T00:00:00Z" envC9 stC9).1.bg.mem.currentIterations
        = stC9.bg.mem.currentIterations := by
  refine ⟨(iteration_counter_discipline.1 stC8.bg).1, ?_, ?_, ?_, ?_⟩
  · exact iteration_counter_discipline.2.1 envC8 ⟨stC8.bg, true⟩ sessT1
      rfl rfl rfl rfl
  · exact iteration_counter_discipline.2.2.1 envC8 _ sessT1 rfl rfl rfl
  · exact iteration_counter_discipline.2.2.2.1 stC8 (iterBegin stC8).1 rfl
  · exact iteration_counter_discipline.2.2.2.2.2 "2024-01-01T00:00:00Z"
      envC9 stC9 ⟨some 5, some "https://x.example", some "complete", true⟩
      ⟨false, none, some "boom"⟩ rfl rfl rfl rfl rfl (by decide) rfl rfl
